import Mathlib

/-!
Verification of the qq-farm-bot per-account protocol engine
(`internal/bot/network.go`, `internal/bot/instance.go`, `internal/bot/farm.go`).

The Go code is shallowly embedded: the shared mutable fields of `Network`
(pending table, disconnect reason latch, heartbeat counters, server-time
delta) become one explicit `Session` record, and each code path that
mutates them becomes a pure step function.  Goroutine interleavings are
modelled as event traces folded over the step function.  Machine int64
values are modelled as `Int` (the Go code never relies on wrap-around in
the modelled paths), protobuf-decodable payloads as `Option` of a record.
-/

namespace QQFarmBot

/-- `DisconnectReason` from network.go: classifies why a connection was
lost.  Constructor order follows the Go `iota` block. -/
inductive DisconnectReason where
  | unknown
  | pingFailed
  | readError
  | kickout
  | heartbeatTimeout
  | loginFailed
  | loginTimeout
  | closed
deriving DecidableEq, Repr

/-- `DisconnectReason.String()` from network.go. -/
def DisconnectReason.toStr : DisconnectReason → String
  | .pingFailed => "ping_failed"
  | .readError => "read_error"
  | .kickout => "kickout"
  | .heartbeatTimeout => "heartbeat_timeout"
  | .loginFailed => "login_failed"
  | .loginTimeout => "login_timeout"
  | .closed => "closed"
  | .unknown => "unknown"

/-- `DisconnectReason.Retryable()` from network.go: reports whether the
watchdog should attempt reconnection. -/
def DisconnectReason.Retryable : DisconnectReason → Bool
  | .kickout => false
  | .closed => false
  | _ => true

/-- `maxHeartbeatFailures` constant from network.go. -/
def maxHeartbeatFailures : Nat := 3

/-- How one pending RPC waiter was resolved.  `response`: a matching
type-2 message arrived; `timeout`: its own `time.AfterFunc` timer fired;
`errClosed`: drained by `Network.Close` with the error string
"connection closed"; `errDrained`: drained by `clearPendingCalls` with
the reason string passed by the heartbeat loop. -/
inductive Resolution where
  | response
  | timeout
  | errClosed
  | errDrained
deriving DecidableEq, Repr

/-- A protobuf-decodable `userpb.HeartbeatReply` (only the field the
code reads). -/
structure HeartbeatReply where
  serverTime : Int
deriving DecidableEq, Repr

/-- The shared mutable fields of one `Network` value (network.go),
gathered into a single record.  `pending` holds the client sequence
numbers currently in the pending table (each Go map key listed once, in
insertion order); `resolved` is the history of waiter resolutions;
`hbRpcCount` counts Heartbeat RPCs actually issued; `hbReturned` records
that the heartbeat goroutine has exited. -/
structure Session where
  clientSeq : Int
  pending : List Int
  reasonWritten : Bool
  disconnectReason : DisconnectReason
  cancelled : Bool
  consecutiveFailures : Nat
  lastHeartbeatAt : Int
  serverTimeDelta : Int
  hbReturned : Bool
  hbRpcCount : Nat
  resolved : List (Int × Resolution)
deriving DecidableEq, Repr

/-- `NewNetwork` from network.go: fresh session state.  `t0` is the
`time.Now().UnixMilli()` stored into `lastHeartbeatAt` at construction. -/
def sessionInit (t0 : Int) : Session :=
  { clientSeq := 0
    pending := []
    reasonWritten := false
    disconnectReason := .unknown
    cancelled := false
    consecutiveFailures := 0
    lastHeartbeatAt := t0
    serverTimeDelta := 0
    hbReturned := false
    hbRpcCount := 0
    resolved := [] }

/-- `Network.disconnectWithReason` from network.go: records the
disconnect reason under `sync.Once` (first-writer-wins) and cancels the
session context. -/
def disconnectWithReason (s : Session) (r : DisconnectReason) : Session :=
  { s with
    reasonWritten := true
    disconnectReason := if s.reasonWritten then s.disconnectReason else r
    cancelled := true }

/-- `Network.GetDisconnectReason` from network.go. -/
def GetDisconnectReason (s : Session) : DisconnectReason :=
  s.disconnectReason

theorem disconnectWithReason_preserved (s : Session) (r : DisconnectReason)
    (h : s.reasonWritten = true) :
    (disconnectWithReason s r).disconnectReason = s.disconnectReason := by
  simp [disconnectWithReason, h]

theorem disconnectWithReason_written (s : Session) (r : DisconnectReason) :
    (disconnectWithReason s r).reasonWritten = true := rfl

theorem foldl_disconnect_preserved (rs : List DisconnectReason) (s : Session)
    (hw : s.reasonWritten = true) :
    (List.foldl disconnectWithReason s rs).disconnectReason = s.disconnectReason ∧
      (List.foldl disconnectWithReason s rs).reasonWritten = true := by
  induction rs generalizing s with
  | nil => exact ⟨rfl, hw⟩
  | cons r rs ih =>
    have h1 := disconnectWithReason_preserved s r hw
    have h2 := disconnectWithReason_written s r
    have := ih (disconnectWithReason s r) h2
    exact ⟨by rw [List.foldl_cons, this.1, h1], by rw [List.foldl_cons, this.2]⟩

/-- Claim C1: the disconnect reason is written at most once.  Starting
from a fresh session, the first `disconnectWithReason` call fixes the
reason: any sequence of later calls leaves it unchanged, and
`GetDisconnectReason` after the session is closed returns the first
value written.  Moreover a second call on any session state never
changes the stored reason. -/
theorem disconnect_reason_first_writer_wins
    (r r' : DisconnectReason) (rs : List DisconnectReason) (s : Session) :
    GetDisconnectReason
        (List.foldl disconnectWithReason (disconnectWithReason (sessionInit 0) r) rs) = r ∧
      (disconnectWithReason (disconnectWithReason s r) r').disconnectReason =
        (disconnectWithReason s r).disconnectReason := by
  constructor
  · have h0 : (disconnectWithReason (sessionInit 0) r).disconnectReason = r := by
      simp [disconnectWithReason, sessionInit]
    have := foldl_disconnect_preserved rs (disconnectWithReason (sessionInit 0) r)
      (disconnectWithReason_written _ r)
    rw [GetDisconnectReason, this.1, h0]
  · exact disconnectWithReason_preserved _ r' (disconnectWithReason_written s r)

/-- Claim C4: `Retryable` returns false exactly for `Kickout` and
`Closed`, and true for every other reason, including the zero value
`Unknown`. -/
theorem retryable_iff_not_kickout_closed (r : DisconnectReason) :
    r.Retryable = false ↔ (r = .kickout ∨ r = .closed) := by
  cases r <;> simp [DisconnectReason.Retryable]

/-- `Network.clearPendingCalls` from network.go: fails every pending
waiter with the given reason string and empties the pending table. -/
def clearPendingCalls (s : Session) : Session :=
  { s with
    pending := []
    resolved := s.resolved ++ s.pending.map (fun q => (q, Resolution.errDrained)) }

/-- `Network.syncServerTime` from network.go: when the heartbeat reply
body is non-empty and decodes, and carries `ServerTime > 0`, store
`serverTime - localNow` into `serverTimeDelta`; otherwise leave the
delta untouched.  `reply = none` models an empty or undecodable body. -/
def syncServerTime (s : Session) (reply : Option HeartbeatReply) (nowMs : Int) : Session :=
  match reply with
  | none => s
  | some rep =>
      if rep.serverTime > 0 then { s with serverTimeDelta := rep.serverTime - nowMs }
      else s

/-- Outcome of one Heartbeat RPC, as seen by the heartbeat loop:
either the RPC errored, or it succeeded with a (possibly undecodable)
reply body, `nowMs` being `time.Now().UnixMilli()` at processing. -/
inductive HBResult where
  | fail
  | ok (reply : Option HeartbeatReply) (nowMs : Int)
deriving DecidableEq, Repr

/-- One observable event on a session.  `rpcSend seq` is a successful
pending-table registration by `sendRequestWithTimeout` (the write
succeeded); `responseArrive` / `timerFire` are the two resolution paths
of `handleMessage` and the `time.AfterFunc` callback; `kickoutNotify` is
the `Kickout` branch of `handleNotify`; `closeCall` is `Network.Close`;
`hbTick gid res` is one heartbeat ticker iteration where the
`UserState.Get` snapshot returned `gid` and the Heartbeat RPC (if
issued) produced `res`. -/
inductive SessionEvent where
  | rpcSend (seq : Int)
  | responseArrive (seq : Int)
  | timerFire (seq : Int)
  | kickoutNotify
  | closeCall
  | hbTick (gid : Int) (res : HBResult)
deriving DecidableEq, Repr

/-- One step of the session semantics; each branch transcribes the
corresponding code path in network.go. -/
def sessionStep (s : Session) (e : SessionEvent) : Session :=
  match e with
  | .rpcSend seq =>
      { s with pending := s.pending ++ [seq] }
  | .responseArrive seq =>
      if seq ∈ s.pending then
        { s with
          pending := s.pending.filter (fun q => decide (q ≠ seq))
          resolved := s.resolved ++ [(seq, Resolution.response)] }
      else s
  | .timerFire seq =>
      if seq ∈ s.pending then
        { s with
          pending := s.pending.filter (fun q => decide (q ≠ seq))
          resolved := s.resolved ++ [(seq, Resolution.timeout)] }
      else s
  | .kickoutNotify =>
      disconnectWithReason s .kickout
  | .closeCall =>
      let s1 := disconnectWithReason s .closed
      { s1 with
        pending := []
        resolved := s1.resolved ++ s1.pending.map (fun q => (q, Resolution.errClosed)) }
  | .hbTick gid res =>
      if s.hbReturned then s
      else if s.cancelled then { s with hbReturned := true }
      else if gid = 0 then s
      else
        let s := { s with hbRpcCount := s.hbRpcCount + 1 }
        match res with
        | .fail =>
            let n := s.consecutiveFailures + 1
            let s := { s with consecutiveFailures := n }
            let s := if n ≥ 2 then clearPendingCalls s else s
            if n ≥ maxHeartbeatFailures then
              { disconnectWithReason s .heartbeatTimeout with hbReturned := true }
            else s
        | .ok reply nowMs =>
            let s := { s with consecutiveFailures := 0, lastHeartbeatAt := nowMs }
            syncServerTime s reply nowMs

/-- Iterated session semantics over an event trace. -/
def sessionRun (s : Session) (es : List SessionEvent) : Session :=
  es.foldl sessionStep s

/-- Claim C2, counterexample: handling a Kickout notify while an RPC
(seq 1) is pending latches the reason and cancels the context, but
leaves the call in the pending table with no resolution recorded — no
drain runs (the watchdog returns without calling `Network.Close` for a
non-retryable reason); the call is later resolved by its own timer with
a timeout error, not a "connection closed" error. -/
theorem kickout_leaves_rpc_pending :
    (sessionRun (sessionInit 0) [.rpcSend 1, .kickoutNotify]).disconnectReason =
        DisconnectReason.kickout ∧
      (sessionRun (sessionInit 0) [.rpcSend 1, .kickoutNotify]).cancelled = true ∧
      (sessionRun (sessionInit 0) [.rpcSend 1, .kickoutNotify]).pending = [1] ∧
      (sessionRun (sessionInit 0) [.rpcSend 1, .kickoutNotify]).resolved = [] ∧
      (sessionRun (sessionInit 0) [.rpcSend 1, .kickoutNotify, .timerFire 1]).resolved =
        [(1, Resolution.timeout)] := by
  decide

/-- Claim C2, amended: handling a Kickout notify latches the disconnect
reason to Kickout and cancels the session context but resolves no
in-flight RPC; a pending RPC remains pending until its own timer fires
(yielding a timeout error) unless `Network.Close` is explicitly called,
whose drain resolves every pending call with a "connection closed"
error. -/
theorem kickout_latches_close_drains (s : Session) (seq : Int) :
    (sessionStep s .kickoutNotify).pending = s.pending ∧
      (sessionStep s .kickoutNotify).resolved = s.resolved ∧
      (sessionStep s .kickoutNotify).cancelled = true ∧
      (sessionStep s .kickoutNotify).disconnectReason =
        (if s.reasonWritten then s.disconnectReason else DisconnectReason.kickout) ∧
      (sessionStep s .closeCall).pending = [] ∧
      (sessionStep s .closeCall).resolved =
        s.resolved ++ s.pending.map (fun q => (q, Resolution.errClosed)) ∧
      (seq ∈ s.pending → (sessionStep s (.timerFire seq)).resolved =
        s.resolved ++ [(seq, Resolution.timeout)]) := by
  refine ⟨rfl, rfl, rfl, rfl, rfl, rfl, fun h => ?_⟩
  simp [sessionStep, h]

theorem kickout_latches_close_drains_witness :
    (1 : Int) ∈ ({ sessionInit 0 with pending := [1] } : Session).pending ∧
      (sessionStep { sessionInit 0 with pending := [1] } (.timerFire 1)).resolved =
        ({ sessionInit 0 with pending := [1] } : Session).resolved ++
          [(1, Resolution.timeout)] :=
  ⟨by decide, (kickout_latches_close_drains { sessionInit 0 with pending := [1] } 1).2.2.2.2.2.2
    (by decide)⟩

/-- Claim C3: in the heartbeat loop, starting from a healthy session
(no failures yet, reason unset, not cancelled), after exactly two
consecutive heartbeat failures every pending call is failed and removed
(the drain) while the disconnect reason stays unset and the session
stays uncancelled; the third consecutive failure records
`HeartbeatTimeout`, cancels the session context, and exits the loop. -/
theorem heartbeat_two_drains_three_disconnects (s : Session) (g : Int)
    (hret : s.hbReturned = false) (hcanc : s.cancelled = false)
    (hw : s.reasonWritten = false) (hcf : s.consecutiveFailures = 0)
    (hg : g ≠ 0) :
    (sessionRun s [.hbTick g .fail]).pending = s.pending ∧
      (sessionRun s [.hbTick g .fail]).consecutiveFailures = 1 ∧
      (sessionRun s [.hbTick g .fail, .hbTick g .fail]).consecutiveFailures = 2 ∧
      (sessionRun s [.hbTick g .fail, .hbTick g .fail]).pending = [] ∧
      (sessionRun s [.hbTick g .fail, .hbTick g .fail]).resolved =
        s.resolved ++ s.pending.map (fun q => (q, Resolution.errDrained)) ∧
      (sessionRun s [.hbTick g .fail, .hbTick g .fail]).reasonWritten = false ∧
      (sessionRun s [.hbTick g .fail, .hbTick g .fail]).cancelled = false ∧
      (sessionRun s [.hbTick g .fail, .hbTick g .fail]).hbReturned = false ∧
      (sessionRun s [.hbTick g .fail, .hbTick g .fail, .hbTick g .fail]).consecutiveFailures = 3 ∧
      (sessionRun s [.hbTick g .fail, .hbTick g .fail, .hbTick g .fail]).disconnectReason =
        DisconnectReason.heartbeatTimeout ∧
      (sessionRun s [.hbTick g .fail, .hbTick g .fail, .hbTick g .fail]).cancelled = true ∧
      (sessionRun s [.hbTick g .fail, .hbTick g .fail, .hbTick g .fail]).hbReturned = true := by
  simp [sessionRun, sessionStep, hret, hcanc, hw, hcf, hg, maxHeartbeatFailures,
    clearPendingCalls, disconnectWithReason]

theorem heartbeat_two_drains_three_disconnects_witness :
    (({ sessionInit 0 with pending := [5, 7] } : Session).hbReturned = false ∧
        ({ sessionInit 0 with pending := [5, 7] } : Session).cancelled = false ∧
        ({ sessionInit 0 with pending := [5, 7] } : Session).reasonWritten = false ∧
        ({ sessionInit 0 with pending := [5, 7] } : Session).consecutiveFailures = 0 ∧
        (1 : Int) ≠ 0) ∧
      (sessionRun { sessionInit 0 with pending := [5, 7] }
          [.hbTick 1 .fail, .hbTick 1 .fail]).pending = [] :=
  ⟨⟨rfl, rfl, rfl, rfl, by decide⟩,
    (heartbeat_two_drains_three_disconnects { sessionInit 0 with pending := [5, 7] } 1
      rfl rfl rfl rfl (by decide)).2.2.2.1⟩

/-- Claim C8, counterexample: a heartbeat success whose reply decodes
but carries `ServerTime = 0` leaves the stored delta unchanged (here 0),
whereas the claim's formula `serverTime − localNow` gives −100 — so the
stored delta does not equal the formula for every decodable reply. -/
theorem heartbeat_delta_skips_nonpositive_servertime :
    (sessionStep (sessionInit 0)
        (.hbTick 1 (.ok (some ⟨0⟩) 100))).serverTimeDelta = 0 ∧
      (0 : Int) - 100 ≠ 0 := by
  decide

/-- Claim C8, amended: every successful heartbeat resets the
consecutive-failure counter to 0 and stores the current wall clock into
`lastHeartbeatAt`; the stored `serverTimeDelta` equals
`serverTime − localNow` whenever the reply decodes and carries a
positive `ServerTime`, and is left unchanged otherwise. -/
theorem heartbeat_success_updates (s : Session) (gid : Int)
    (reply : Option HeartbeatReply) (nowMs : Int)
    (hret : s.hbReturned = false) (hcanc : s.cancelled = false) (hg : gid ≠ 0) :
    (sessionStep s (.hbTick gid (.ok reply nowMs))).consecutiveFailures = 0 ∧
      (sessionStep s (.hbTick gid (.ok reply nowMs))).lastHeartbeatAt = nowMs ∧
      (sessionStep s (.hbTick gid (.ok reply nowMs))).serverTimeDelta =
        (match reply with
          | some rep =>
              if rep.serverTime > 0 then rep.serverTime - nowMs else s.serverTimeDelta
          | none => s.serverTimeDelta) := by
  cases reply with
  | none => simp [sessionStep, hret, hcanc, hg, syncServerTime]
  | some rep =>
      by_cases hst : rep.serverTime > 0 <;>
        simp [sessionStep, hret, hcanc, hg, syncServerTime, hst]

theorem heartbeat_success_updates_witness :
    ((sessionInit 0).hbReturned = false ∧ (sessionInit 0).cancelled = false ∧
        (1 : Int) ≠ 0) ∧
      (sessionStep (sessionInit 0) (.hbTick 1 (.ok (some ⟨250⟩) 100))).serverTimeDelta =
        (match (some ⟨250⟩ : Option HeartbeatReply) with
          | some rep => if rep.serverTime > 0 then rep.serverTime - 100
              else (sessionInit 0).serverTimeDelta
          | none => (sessionInit 0).serverTimeDelta) :=
  ⟨⟨rfl, rfl, by decide⟩,
    (heartbeat_success_updates (sessionInit 0) 1 (some ⟨250⟩) 100 rfl rfl (by decide)).2.2⟩

/-- Claim C10: a heartbeat tick whose `UserState.Get` snapshot returns
GID 0 issues no Heartbeat RPC and leaves the consecutive-failure
counter, `lastHeartbeatAt`, `serverTimeDelta` and the pending table
unchanged, whatever the rest of the session state. -/
theorem heartbeat_skips_when_gid_zero (s : Session) (res : HBResult) :
    (sessionStep s (.hbTick 0 res)).hbRpcCount = s.hbRpcCount ∧
      (sessionStep s (.hbTick 0 res)).consecutiveFailures = s.consecutiveFailures ∧
      (sessionStep s (.hbTick 0 res)).lastHeartbeatAt = s.lastHeartbeatAt ∧
      (sessionStep s (.hbTick 0 res)).serverTimeDelta = s.serverTimeDelta ∧
      (sessionStep s (.hbTick 0 res)).pending = s.pending := by
  by_cases h1 : s.hbReturned <;> by_cases h2 : s.cancelled <;>
    simp [sessionStep, h1, h2]

/-- Result of `Network.sendRequestWithTimeout` up to the blocking read
of the result channel: either the WebSocket write failed (the error is
returned wrapped as "write: ..."), or the call is awaiting its reply
under the allocated sequence number. -/
inductive SendOutcome where
  | writeError (msg : String)
  | awaiting (seq : Int)
deriving DecidableEq, Repr

/-- `Network.sendRequestWithTimeout` from network.go, modelled up to the
channel wait: allocate the next client sequence, insert a pending entry
with a fresh timer, then attempt the write (`writeErr = some e` models a
failing `writeMessage`).  On failure the entry is deleted and the timer
stopped.  Returns (new session, outcome, whether the timer was
stopped on the error path). -/
def sendRequestWithTimeout (s : Session) (writeErr : Option String) :
    Session × SendOutcome × Bool :=
  let seq := s.clientSeq + 1
  let s1 := { s with clientSeq := seq, pending := s.pending ++ [seq] }
  match writeErr with
  | some e =>
      ({ s1 with pending := s1.pending.filter (fun q => decide (q ≠ seq)) },
        .writeError ("write: " ++ e), true)
  | none => (s1, .awaiting seq, false)

/-- Claim C5: when the WebSocket write fails, `sendRequestWithTimeout`
returns the wrapped write error, has removed the pending-table entry for
the allocated sequence, and has stopped its timer — the pending table is
exactly as before the call, so no waiter is left behind.  The freshness
hypothesis holds in the program because the sequence counter is
monotonic and never reused within a session. -/
theorem send_write_failure_leaves_no_waiter (s : Session) (e : String)
    (hfresh : s.clientSeq + 1 ∉ s.pending) :
    (sendRequestWithTimeout s (some e)).2.1 = .writeError ("write: " ++ e) ∧
      (sendRequestWithTimeout s (some e)).2.2 = true ∧
      (sendRequestWithTimeout s (some e)).1.pending = s.pending ∧
      s.clientSeq + 1 ∉ (sendRequestWithTimeout s (some e)).1.pending := by
  have hall : ∀ q ∈ s.pending, (fun q => decide (q ≠ s.clientSeq + 1)) q = true := by
    intro q hq
    simp only [decide_eq_true_eq]
    intro hEq
    exact hfresh (hEq ▸ hq)
  have hfilter :
      (s.pending ++ [s.clientSeq + 1]).filter (fun q => decide (q ≠ s.clientSeq + 1)) =
        s.pending := by
    rw [List.filter_append, List.filter_eq_self.mpr hall]
    simp
  refine ⟨rfl, rfl, ?_, ?_⟩
  · simpa [sendRequestWithTimeout] using hfilter
  · simp only [sendRequestWithTimeout]
    rw [hfilter]
    exact hfresh

theorem send_write_failure_leaves_no_waiter_witness :
    ((sessionInit 0).clientSeq + 1 ∉ (sessionInit 0).pending) ∧
      (sendRequestWithTimeout (sessionInit 0) (some "broken pipe")).1.pending =
        (sessionInit 0).pending :=
  ⟨by decide,
    (send_write_failure_leaves_no_waiter (sessionInit 0) "broken pipe" (by decide)).2.2.1⟩

/-- `maxLoginTimeoutAttempts` constant from instance.go. -/
def maxLoginTimeoutAttempts : Nat := 3

/-- `reconnectBackoffInit` from instance.go (2 s), in milliseconds. -/
def reconnectBackoffInitMs : Int := 2000

/-- `reconnectBackoffMax` from instance.go (60 s), in milliseconds. -/
def reconnectBackoffMaxMs : Int := 60000

/-- `backoff *= 2` followed by the cap, from the watchdog reconnect
loop in instance.go. -/
def doubleBackoff (b : Int) : Int :=
  if b * 2 > reconnectBackoffMaxMs then reconnectBackoffMaxMs else b * 2

/-- The account error string `fmt.Sprintf("登录超时达上限 (%d/%d)", c,
maxLoginTimeoutAttempts)` from instance.go. -/
def loginTimeoutErrMsg (c : Nat) : String :=
  "登录超时达上限 (" ++ toString c ++ "/" ++ toString maxLoginTimeoutAttempts ++ ")"

/-- Outcome of one `connectAndRun` call as the watchdog classifies it:
success, a `connectError` whose reason is `DisconnectLoginTimeout`, or
any other failure. -/
inductive AttemptResult where
  | ok
  | failLoginTimeout
  | failOther
deriving DecidableEq, Repr

/-- Where the watchdog control flow currently sits: blocked on
`net.Done()` in the outer loop, or inside the reconnect loop. -/
inductive WatchdogMode where
  | waiting
  | reconnecting
deriving DecidableEq, Repr

/-- Inputs consumed by the watchdog: a session termination observed in
the outer loop (`stop` = the stop channel fired first, otherwise
`reason` is what `GetDisconnectReason` returned), or one reconnect-loop
iteration (`stop` = the stop channel fired during the backoff sleep,
otherwise `res` is the `connectAndRun` outcome). -/
inductive WatchdogInput where
  | sessionEnd (stop : Bool) (reason : DisconnectReason)
  | attempt (stop : Bool) (res : AttemptResult)
deriving DecidableEq, Repr

/-- The watchdog's local variables plus the `Instance` fields it
mutates (`running`, `err`), with `terminated` marking that the watchdog
goroutine has returned and `attemptCount` counting `connectAndRun`
calls it has made. -/
structure WatchdogState where
  mode : WatchdogMode
  backoffMs : Int
  loginTimeoutCount : Nat
  errMsg : Option String
  terminated : Bool
  attemptCount : Nat
  running : Bool
deriving DecidableEq, Repr

/-- Watchdog state on entry (instance.go `watchdog`): fresh backoff and
counter, bot currently running. -/
def watchdogInit : WatchdogState :=
  { mode := .waiting
    backoffMs := reconnectBackoffInitMs
    loginTimeoutCount := 0
    errMsg := none
    terminated := false
    attemptCount := 0
    running := true }

/-- One control-flow step of `Instance.watchdog` from instance.go.
Inputs that cannot occur in the current mode, or arrive after the
goroutine returned, leave the state unchanged. -/
def watchdogStep (s : WatchdogState) (i : WatchdogInput) : WatchdogState :=
  if s.terminated then s else
  match s.mode, i with
  | .waiting, .sessionEnd stop reason =>
      if stop then { s with terminated := true }
      else
        let s := { s with running := false }
        if reason.Retryable = false then
          { s with errMsg := some ("断开: " ++ reason.toStr), terminated := true }
        else if reason = .loginTimeout then
          let c := s.loginTimeoutCount + 1
          if c ≥ maxLoginTimeoutAttempts then
            { s with loginTimeoutCount := c, errMsg := some (loginTimeoutErrMsg c), terminated := true }
          else { s with loginTimeoutCount := c, mode := .reconnecting }
        else { s with mode := .reconnecting }
  | .reconnecting, .attempt stop res =>
      if stop then { s with terminated := true }
      else
        let s := { s with attemptCount := s.attemptCount + 1 }
        match res with
        | .ok =>
            { s with backoffMs := reconnectBackoffInitMs, loginTimeoutCount := 0, mode := .waiting, running := true }
        | .failLoginTimeout =>
            let c := s.loginTimeoutCount + 1
            if c ≥ maxLoginTimeoutAttempts then
              { s with loginTimeoutCount := c, errMsg := some (loginTimeoutErrMsg c), terminated := true }
            else { s with loginTimeoutCount := c, backoffMs := doubleBackoff s.backoffMs }
        | .failOther => { s with backoffMs := doubleBackoff s.backoffMs }
  | _, _ => s

/-- Iterated watchdog semantics over an input trace. -/
def watchdogRun (s : WatchdogState) (is : List WatchdogInput) : WatchdogState :=
  is.foldl watchdogStep s

/-- `charsStartWith sub l` decides whether `sub` is a prefix of `l`. -/
def charsStartWith : List Char → List Char → Bool
  | [], _ => true
  | _ :: _, [] => false
  | a :: as, b :: bs => decide (a = b) && charsStartWith as bs

/-- `charsContain sub l` decides whether `sub` occurs contiguously
inside `l`. -/
def charsContain (sub : List Char) : List Char → Bool
  | [] => sub.isEmpty
  | b :: bs => charsStartWith sub (b :: bs) || charsContain sub bs

/-- Substring test on strings (Go `strings.Contains`). -/
def strContainsSub (s sub : String) : Bool :=
  charsContain sub.data s.data

/-- Claim C6: once login timeouts have accumulated to 3 — whether the
third strike is observed at the outer loop (initial disconnect) or
inside the reconnect loop — the watchdog terminates with the account
error string containing "登录超时达上限" and makes no further
connection attempt (a terminated watchdog absorbs every input, so
`attemptCount` never grows again); a successful reconnect resets both
the backoff and the login-timeout counter. -/
theorem watchdog_three_login_timeouts_surrender (s : WatchdogState) (i : WatchdogInput) :
    (s.terminated = true → watchdogStep s i = s) ∧
      (s.terminated = false → s.mode = .waiting → s.loginTimeoutCount = 2 →
        (watchdogStep s (.sessionEnd false .loginTimeout)).terminated = true ∧
          (watchdogStep s (.sessionEnd false .loginTimeout)).attemptCount = s.attemptCount ∧
          ∃ m, (watchdogStep s (.sessionEnd false .loginTimeout)).errMsg = some m ∧
            strContainsSub m "登录超时达上限" = true) ∧
      (s.terminated = false → s.mode = .reconnecting → s.loginTimeoutCount = 2 →
        (watchdogStep s (.attempt false .failLoginTimeout)).terminated = true ∧
          (watchdogStep s (.attempt false .failLoginTimeout)).attemptCount =
            s.attemptCount + 1 ∧
          ∃ m, (watchdogStep s (.attempt false .failLoginTimeout)).errMsg = some m ∧
            strContainsSub m "登录超时达上限" = true) ∧
      (s.terminated = false → s.mode = .reconnecting →
        (watchdogStep s (.attempt false .ok)).backoffMs = reconnectBackoffInitMs ∧
          (watchdogStep s (.attempt false .ok)).loginTimeoutCount = 0) := by
  refine ⟨fun ht => ?_, fun ht hm hc => ?_, fun ht hm hc => ?_, fun ht hm => ?_⟩
  · simp [watchdogStep, ht]
  · refine ⟨?_, ?_, loginTimeoutErrMsg 3, ?_, by decide⟩ <;>
      simp [watchdogStep, ht, hm, hc, DisconnectReason.Retryable, maxLoginTimeoutAttempts]
  · refine ⟨?_, ?_, loginTimeoutErrMsg 3, ?_, by decide⟩ <;>
      simp [watchdogStep, ht, hm, hc, maxLoginTimeoutAttempts]
  · constructor <;> simp [watchdogStep, ht, hm]

theorem watchdog_three_login_timeouts_surrender_witness :
    (({ watchdogInit with loginTimeoutCount := 2 } : WatchdogState).terminated = false ∧
        ({ watchdogInit with loginTimeoutCount := 2 } : WatchdogState).mode = .waiting ∧
        ({ watchdogInit with loginTimeoutCount := 2 } : WatchdogState).loginTimeoutCount = 2) ∧
      (watchdogStep { watchdogInit with loginTimeoutCount := 2 }
          (.sessionEnd false .loginTimeout)).terminated = true ∧
      (({ watchdogInit with mode := .reconnecting } : WatchdogState).terminated = false ∧
        ({ watchdogInit with mode := .reconnecting } : WatchdogState).mode = .reconnecting) ∧
      (watchdogStep { watchdogInit with mode := .reconnecting }
          (.attempt false .ok)).backoffMs = reconnectBackoffInitMs :=
  ⟨⟨rfl, rfl, rfl⟩,
    ((watchdog_three_login_timeouts_surrender { watchdogInit with loginTimeoutCount := 2 }
        (.sessionEnd true .unknown)).2.1 rfl rfl rfl).1,
    ⟨rfl, rfl⟩,
    ((watchdog_three_login_timeouts_surrender { watchdogInit with mode := .reconnecting }
        (.sessionEnd true .unknown)).2.2.2 rfl rfl).1⟩

/-- One entry of `shoppb.GoodsInfo.Conds` (only the fields the code
reads); `type = 1` is the MIN_LEVEL condition. -/
structure GoodsCond where
  type : Int
  param : Int
deriving DecidableEq, Repr

/-- `shoppb.GoodsInfo` restricted to the fields `findBestSeed` reads. -/
structure GoodsInfo where
  id : Int
  itemId : Int
  price : Int
  unlocked : Bool
  conds : List GoodsCond
  limitCount : Int
  boughtNum : Int
deriving DecidableEq, Repr

/-- The `candidate` struct local to `FarmWorker.findBestSeed`. -/
structure Candidate where
  goods : GoodsInfo
  requiredLevel : Int
deriving DecidableEq, Repr

/-- The `for _, cond := range goods.Conds` loop of `findBestSeed`:
walks the conditions keeping the latest MIN_LEVEL parameter as `req`,
breaking with failure as soon as the current level is below one. -/
def condsLoop (level : Int) : List GoodsCond → Int → Bool × Int
  | [], req => (true, req)
  | c :: rest, req =>
      if c.type = 1 then
        if level < c.param then (false, c.param)
        else condsLoop level rest c.param
      else condsLoop level rest req

/-- The per-goods filter body of the candidate loop in `findBestSeed`:
skip locked goods, goods failing a MIN_LEVEL condition, and goods whose
purchase limit is exhausted; otherwise keep the goods with its required
level. -/
def goodsFilter (level : Int) (g : GoodsInfo) : Option Candidate :=
  if g.unlocked = false then none
  else if (condsLoop level g.conds 0).1 = false then none
  else if g.limitCount > 0 ∧ g.boughtNum ≥ g.limitCount then none
  else some ⟨g, (condsLoop level g.conds 0).2⟩

/-- The `available` list accumulated by `findBestSeed`. -/
def buildAvailable (level : Int) (goodsList : List GoodsInfo) : List Candidate :=
  goodsList.filterMap (goodsFilter level)

/-- The linear best-candidate scan `for _, c := range available[1:]`
shared by the three selection branches of `findBestSeed`, parameterized
by the strict improvement test `lt`. -/
def pickBy (lt : Candidate → Candidate → Bool) : Candidate → List Candidate → Candidate
  | best, [] => best
  | best, c :: rest => if lt c best then pickBy lt c rest else pickBy lt best rest

/-- Improvement test of the `forceLowest` branch: strictly lower
required level, or equal level and strictly lower price. -/
def ltLevelPrice (a b : Candidate) : Bool :=
  decide (a.requiredLevel < b.requiredLevel) ||
    (decide (a.requiredLevel = b.requiredLevel) && decide (a.goods.price < b.goods.price))

/-- Improvement test of the low-level fallback branch. -/
def ltLevel (a b : Candidate) : Bool :=
  decide (a.requiredLevel < b.requiredLevel)

/-- Improvement test of the high-level fallback branch. -/
def gtLevel (a b : Candidate) : Bool :=
  decide (a.requiredLevel > b.requiredLevel)

/-- The recommendation intersection of `findBestSeed`: walk the
catalog recommendation (a list of seed ids, already filtered to the
current level and ordered by exp-per-hour) and return the first
available candidate whose `ItemId` matches. -/
def recMatch (available : List Candidate) : List Int → Option GoodsInfo
  | [] => none
  | r :: rest =>
      match available.find? (fun c => decide (c.goods.itemId = r)) with
      | some c => some c.goods
      | none => recMatch available rest

/-- `FarmWorker.findBestSeed` from farm.go, after the ShopInfo RPC has
produced `goodsList`: `level` is the `UserState.Get` snapshot, `recs`
the `GetPlantingRecommendation` seed ids (empty when the catalog is
absent), `forceLowest` the config flag.  `none` models the two error
returns. -/
def findBestSeed (forceLowest : Bool) (level : Int) (recs : List Int)
    (goodsList : List GoodsInfo) : Option GoodsInfo :=
  if goodsList = [] then none
  else
    match buildAvailable level goodsList with
    | [] => none
    | b :: rest =>
        if forceLowest then some (pickBy ltLevelPrice b rest).goods
        else
          match recMatch (b :: rest) recs with
          | some g => some g
          | none =>
              if level ≤ 28 then some (pickBy ltLevel b rest).goods
              else some (pickBy gtLevel b rest).goods

theorem condsLoop_true_iff (level : Int) (conds : List GoodsCond) (req : Int) :
    (condsLoop level conds req).1 = true ↔
      ∀ c ∈ conds, c.type = 1 → c.param ≤ level := by
  induction conds generalizing req with
  | nil => simp [condsLoop]
  | cons c rest ih =>
      by_cases h1 : c.type = 1
      · by_cases h2 : level < c.param
        · simp only [condsLoop, if_pos h1, if_pos h2]
          constructor
          · intro h
            exact absurd h (by simp)
          · intro h
            exact absurd (h c (List.mem_cons_self c rest) h1) (by omega)
        · simp only [condsLoop, if_pos h1, if_neg h2, ih]
          constructor
          · intro h d hd
            rcases List.mem_cons.mp hd with hdc | hdr
            · subst hdc
              intro _
              omega
            · exact h d hdr
          · intro h d hd
            exact h d (List.mem_cons_of_mem c hd)
      · simp only [condsLoop, if_neg h1, ih]
        constructor
        · intro h d hd
          rcases List.mem_cons.mp hd with hdc | hdr
          · subst hdc
            intro h1'
            exact absurd h1' h1
          · exact h d hdr
        · intro h d hd
          exact h d (List.mem_cons_of_mem c hd)

theorem goodsFilter_eq_some (level : Int) (g : GoodsInfo) (c : Candidate) :
    goodsFilter level g = some c ↔
      (g.unlocked = true ∧ (condsLoop level g.conds 0).1 = true ∧
        ¬(g.limitCount > 0 ∧ g.boughtNum ≥ g.limitCount) ∧
        c = ⟨g, (condsLoop level g.conds 0).2⟩) := by
  unfold goodsFilter
  split_ifs with h1 h2 h3
  · constructor
    · intro h
      exact absurd h (by simp)
    · rintro ⟨hu, -, -, -⟩
      rw [h1] at hu
      exact absurd hu (by simp)
  · constructor
    · intro h
      exact absurd h (by simp)
    · rintro ⟨-, hcl, -, -⟩
      rw [h2] at hcl
      exact absurd hcl (by simp)
  · constructor
    · intro h
      exact absurd h (by simp)
    · rintro ⟨-, -, hlim, -⟩
      exact absurd h3 hlim
  · constructor
    · intro h
      refine ⟨by simpa using h1, by simpa using h2, h3, ?_⟩
      exact (Option.some_inj.mp h).symm
    · rintro ⟨-, -, -, hc⟩
      rw [hc]

theorem buildAvailable_mem (level : Int) (gl : List GoodsInfo) (g : GoodsInfo) :
    (∃ c ∈ buildAvailable level gl, c.goods = g) ↔
      (g ∈ gl ∧ g.unlocked = true ∧
        (∀ cond ∈ g.conds, cond.type = 1 → cond.param ≤ level) ∧
        ¬(g.limitCount > 0 ∧ g.boughtNum ≥ g.limitCount)) := by
  constructor
  · rintro ⟨c, hc, hcg⟩
    obtain ⟨a, ha, hfa⟩ := List.mem_filterMap.mp hc
    obtain ⟨hu, hcl, hlim, hceq⟩ := (goodsFilter_eq_some level a c).mp hfa
    have hag : a = g := by rw [hceq] at hcg; exact hcg
    subst hag
    exact ⟨ha, hu, (condsLoop_true_iff level a.conds 0).mp hcl, hlim⟩
  · rintro ⟨hg, hu, hcl, hlim⟩
    refine ⟨⟨g, (condsLoop level g.conds 0).2⟩, ?_, rfl⟩
    exact List.mem_filterMap.mpr ⟨g, hg,
      (goodsFilter_eq_some level g _).mpr
        ⟨hu, (condsLoop_true_iff level g.conds 0).mpr hcl, hlim, rfl⟩⟩

theorem pickBy_spec (lt : Candidate → Candidate → Bool) (R : Candidate → Candidate → Prop)
    (hRlt : ∀ a b, lt a b = true → R a b)
    (hRnlt : ∀ a b, lt a b = false → R b a)
    (hTrans : ∀ a b c, R a b → R b c → R a c) :
    ∀ (l : List Candidate) (b : Candidate),
      pickBy lt b l ∈ b :: l ∧ ∀ c ∈ b :: l, R (pickBy lt b l) c := by
  intro l
  induction l with
  | nil =>
      intro b
      refine ⟨List.mem_singleton_self b, ?_⟩
      intro x hx
      rw [List.mem_singleton] at hx
      rw [hx]
      cases h : lt b b with
      | true => exact hRlt _ _ h
      | false => exact hRnlt _ _ h
  | cons c rest ih =>
      intro b
      have hunf : pickBy lt b (c :: rest) =
          if lt c b then pickBy lt c rest else pickBy lt b rest := rfl
      cases h : lt c b with
      | true =>
          obtain ⟨hmem, hmin⟩ := ih c
          have hpick : pickBy lt b (c :: rest) = pickBy lt c rest := by
            rw [hunf, if_pos h]
          refine ⟨?_, ?_⟩
          · rw [hpick]
            exact List.mem_cons_of_mem b hmem
          · intro x hx
            rw [hpick]
            rcases List.mem_cons.mp hx with h1 | h1
            · rw [h1]
              exact hTrans _ _ _ (hmin c (List.mem_cons_self c rest)) (hRlt _ _ h)
            · exact hmin x h1
      | false =>
          obtain ⟨hmem, hmin⟩ := ih b
          have hpick : pickBy lt b (c :: rest) = pickBy lt b rest := by
            rw [hunf, if_neg]
            simp [h]
          refine ⟨?_, ?_⟩
          · rw [hpick]
            rcases List.mem_cons.mp hmem with h1 | h1
            · rw [h1]
              exact List.mem_cons_self b (c :: rest)
            · exact List.mem_cons_of_mem b (List.mem_cons_of_mem c h1)
          · intro x hx
            rw [hpick]
            rcases List.mem_cons.mp hx with h1 | h1
            · rw [h1]
              exact hmin b (List.mem_cons_self b rest)
            · rcases List.mem_cons.mp h1 with h2 | h2
              · rw [h2]
                exact hTrans _ _ _ (hmin b (List.mem_cons_self b rest)) (hRnlt _ _ h)
              · exact hmin x (List.mem_cons_of_mem b h2)

/-- Claim C7: `findBestSeed` filters the shop goods to candidates that
are unlocked, meet every MIN_LEVEL (type-1) condition at the current
level, and have a non-exhausted purchase limit (part 1); with the
`forceLowest` flag it returns a candidate of minimal required level,
ties broken by minimal price (part 2); without the flag, when no
catalog recommendation matches a candidate, it returns a candidate of
minimal required level below level 29 (part 3) and of maximal required
level at level 29 or above (part 4). -/
theorem findBestSeed_policy (level : Int) (recs : List Int)
    (gl : List GoodsInfo) (g : GoodsInfo) :
    ((∃ c ∈ buildAvailable level gl, c.goods = g) ↔
        (g ∈ gl ∧ g.unlocked = true ∧
          (∀ cond ∈ g.conds, cond.type = 1 → cond.param ≤ level) ∧
          ¬(g.limitCount > 0 ∧ g.boughtNum ≥ g.limitCount))) ∧
      (findBestSeed true level recs gl = some g →
        ∃ c ∈ buildAvailable level gl, c.goods = g ∧
          ∀ c' ∈ buildAvailable level gl,
            c.requiredLevel ≤ c'.requiredLevel ∧
              (c'.requiredLevel = c.requiredLevel → c.goods.price ≤ c'.goods.price)) ∧
      (recMatch (buildAvailable level gl) recs = none → level < 29 →
          findBestSeed false level recs gl = some g →
        ∃ c ∈ buildAvailable level gl, c.goods = g ∧
          ∀ c' ∈ buildAvailable level gl, c.requiredLevel ≤ c'.requiredLevel) ∧
      (recMatch (buildAvailable level gl) recs = none → 29 ≤ level →
          findBestSeed false level recs gl = some g →
        ∃ c ∈ buildAvailable level gl, c.goods = g ∧
          ∀ c' ∈ buildAvailable level gl, c'.requiredLevel ≤ c.requiredLevel) := by
  have hlpSpec := pickBy_spec ltLevelPrice
    (fun a b => a.requiredLevel ≤ b.requiredLevel ∧
      (b.requiredLevel = a.requiredLevel → a.goods.price ≤ b.goods.price))
    (by
      intro a b h
      simp [ltLevelPrice] at h
      constructor
      · rcases h with h | ⟨h1, h2⟩ <;> omega
      · intro he
        rcases h with h | ⟨h1, h2⟩ <;> omega)
    (by
      intro a b h
      simp [ltLevelPrice] at h
      obtain ⟨h1, h2⟩ := h
      constructor
      · omega
      · intro he
        have := h2 he
        omega)
    (by
      rintro a b c ⟨h1, h2⟩ ⟨h3, h4⟩
      constructor
      · omega
      · intro he
        have hab : b.requiredLevel = a.requiredLevel := by omega
        have hcb : c.requiredLevel = b.requiredLevel := by omega
        have := h2 hab
        have := h4 hcb
        omega)
  have hloSpec := pickBy_spec ltLevel
    (fun a b => a.requiredLevel ≤ b.requiredLevel)
    (by intro a b h; simp [ltLevel] at h; omega)
    (by intro a b h; simp [ltLevel] at h; omega)
    (by intro a b c h1 h2; omega)
  have hhiSpec := pickBy_spec gtLevel
    (fun a b => b.requiredLevel ≤ a.requiredLevel)
    (by intro a b h; simp [gtLevel] at h; omega)
    (by intro a b h; simp [gtLevel] at h; omega)
    (by intro a b c h1 h2; omega)
  refine ⟨buildAvailable_mem level gl g, ?_, ?_, ?_⟩
  · intro h
    by_cases hgl : gl = []
    · rw [hgl] at h
      simp [findBestSeed] at h
    · unfold findBestSeed at h
      rw [if_neg hgl] at h
      cases hA : buildAvailable level gl with
      | nil =>
          rw [hA] at h
          simp at h
      | cons b rest =>
          rw [hA] at h
          simp only [if_true] at h
          obtain ⟨hmem, hmin⟩ := hlpSpec rest b
          refine ⟨pickBy ltLevelPrice b rest, ?_, Option.some_inj.mp h, ?_⟩
          · exact hmem
          · intro c' hc'
            exact hmin c' hc'
  · intro hrec hlv h
    by_cases hgl : gl = []
    · rw [hgl] at h
      simp [findBestSeed] at h
    · unfold findBestSeed at h
      rw [if_neg hgl] at h
      cases hA : buildAvailable level gl with
      | nil =>
          rw [hA] at h
          simp at h
      | cons b rest =>
          rw [hA] at h
          rw [hA] at hrec
          simp only [Bool.false_eq_true, if_false, hrec] at h
          have hle : level ≤ 28 := by omega
          rw [if_pos hle] at h
          obtain ⟨hmem, hmin⟩ := hloSpec rest b
          refine ⟨pickBy ltLevel b rest, ?_, Option.some_inj.mp h, ?_⟩
          · exact hmem
          · intro c' hc'
            exact hmin c' hc'
  · intro hrec hlv h
    by_cases hgl : gl = []
    · rw [hgl] at h
      simp [findBestSeed] at h
    · unfold findBestSeed at h
      rw [if_neg hgl] at h
      cases hA : buildAvailable level gl with
      | nil =>
          rw [hA] at h
          simp at h
      | cons b rest =>
          rw [hA] at h
          rw [hA] at hrec
          simp only [Bool.false_eq_true, if_false, hrec] at h
          have hle : ¬(level ≤ 28) := by omega
          rw [if_neg hle] at h
          obtain ⟨hmem, hmin⟩ := hhiSpec rest b
          refine ⟨pickBy gtLevel b rest, ?_, Option.some_inj.mp h, ?_⟩
          · exact hmem
          · intro c' hc'
            exact hmin c' hc'

/-- A concrete unlocked seed goods with MIN_LEVEL 5 and price 50. -/
def seedGoodsA : GoodsInfo := ⟨1, 101, 50, true, [⟨1, 5⟩], 0, 0⟩

/-- A concrete unlocked seed goods with MIN_LEVEL 8 and price 30. -/
def seedGoodsB : GoodsInfo := ⟨2, 102, 30, true, [⟨1, 8⟩], 0, 0⟩

theorem findBestSeed_policy_witness :
    (findBestSeed true 10 [] [seedGoodsA, seedGoodsB] = some seedGoodsA ∧
        ∃ c ∈ buildAvailable 10 [seedGoodsA, seedGoodsB], c.goods = seedGoodsA ∧
          ∀ c' ∈ buildAvailable 10 [seedGoodsA, seedGoodsB],
            c.requiredLevel ≤ c'.requiredLevel ∧
              (c'.requiredLevel = c.requiredLevel → c.goods.price ≤ c'.goods.price)) ∧
      (recMatch (buildAvailable 10 [seedGoodsA, seedGoodsB]) [] = none ∧ (10 : Int) < 29 ∧
        ∃ c ∈ buildAvailable 10 [seedGoodsA, seedGoodsB], c.goods = seedGoodsA ∧
          ∀ c' ∈ buildAvailable 10 [seedGoodsA, seedGoodsB],
            c.requiredLevel ≤ c'.requiredLevel) ∧
      (recMatch (buildAvailable 30 [seedGoodsA, seedGoodsB]) [] = none ∧ (29 : Int) ≤ 30 ∧
        ∃ c ∈ buildAvailable 30 [seedGoodsA, seedGoodsB], c.goods = seedGoodsB ∧
          ∀ c' ∈ buildAvailable 30 [seedGoodsA, seedGoodsB],
            c'.requiredLevel ≤ c.requiredLevel) :=
  ⟨⟨by decide, (findBestSeed_policy 10 [] [seedGoodsA, seedGoodsB] seedGoodsA).2.1 (by decide)⟩,
    ⟨by decide, by decide,
      (findBestSeed_policy 10 [] [seedGoodsA, seedGoodsB] seedGoodsA).2.2.1
        (by decide) (by decide) (by decide)⟩,
    ⟨by decide, by decide,
      (findBestSeed_policy 30 [] [seedGoodsA, seedGoodsB] seedGoodsB).2.2.2
        (by decide) (by decide) (by decide)⟩⟩

/-- `UserState` from network.go (the five fields under its RWMutex). -/
structure UserState where
  gid : Int
  name : String
  level : Int
  exp : Int
  gold : Int
deriving DecidableEq, Repr

/-- The `Basic` payload of a decodable `userpb.BasicNotify` (the three
fields the handler reads). -/
structure BasicInfo where
  level : Int
  gold : Int
  exp : Int
deriving DecidableEq, Repr

/-- The `BasicNotify` branch of `Network.handleNotify` from network.go,
for a decodable notify with a non-nil `Basic`: copy each of
level/gold/exp into `UserState` when the notify value is `> 0`, then
report (second component) whether the level-up log line was emitted
(`n.state.Level != oldLevel` after the updates). -/
def handleBasicNotify (s : UserState) (b : BasicInfo) : UserState × Bool :=
  let oldLevel := s.level
  let s1 := if b.level > 0 then { s with level := b.level } else s
  let s2 := if b.gold > 0 then { s1 with gold := b.gold } else s1
  let s3 := if b.exp > 0 then { s2 with exp := b.exp } else s2
  (s3, decide (s3.level ≠ oldLevel))

/-- One non-nil entry of `ItemNotify.Items` (the two fields read). -/
structure ItemChange where
  id : Int
  count : Int
deriving DecidableEq, Repr

/-- The per-item body of the `ItemNotify` branch of
`Network.handleNotify` from network.go: ids 1101 and 2 set `exp` to the
item count, ids 1 and 1001 set `gold`, every other id is ignored. -/
def handleItemChange (s : UserState) (c : ItemChange) : UserState :=
  if c.id = 1101 ∨ c.id = 2 then { s with exp := c.count }
  else if c.id = 1 ∨ c.id = 1001 then { s with gold := c.count }
  else s

/-- The `ItemNotify` branch of `Network.handleNotify`: fold over the
non-nil item changes in order. -/
def handleItemNotify (s : UserState) (cs : List ItemChange) : UserState :=
  cs.foldl handleItemChange s

/-- Claim C9, counterexample: a `BasicNotify` carrying the non-zero
level value −1 does not update `UserState.level` (the code guards each
field with `> 0`, not `≠ 0`), contradicting "exactly the fields whose
non-zero notify values are provided are updated". -/
theorem basic_notify_ignores_negative_values :
    ((⟨-1, 0, 0⟩ : BasicInfo).level ≠ 0) ∧
      (handleBasicNotify ⟨1, "", 5, 7, 9⟩ ⟨-1, 0, 0⟩).1.level = 5 ∧
      (handleBasicNotify ⟨1, "", 5, 7, 9⟩ ⟨-1, 0, 0⟩).1.level ≠ -1 := by
  decide

/-- Claim C9, amended: a handled `BasicNotify` updates exactly the
`UserState` fields (level, gold, exp) whose notify values are positive,
leaves GID and name (and every field with a non-positive notify value)
unchanged, and emits the level-up log line exactly when the stored
level changed; a handled `ItemNotify` item with id 1101 or 2 updates
only `exp` (set to the item count), with id 1 or 1001 updates only
`gold`, and with any other id leaves the state entirely unchanged. -/
theorem notify_update_characterization (s : UserState) (b : BasicInfo) (c : ItemChange) :
    (handleBasicNotify s b).1.level = (if b.level > 0 then b.level else s.level) ∧
      (handleBasicNotify s b).1.gold = (if b.gold > 0 then b.gold else s.gold) ∧
      (handleBasicNotify s b).1.exp = (if b.exp > 0 then b.exp else s.exp) ∧
      (handleBasicNotify s b).1.gid = s.gid ∧
      (handleBasicNotify s b).1.name = s.name ∧
      ((handleBasicNotify s b).2 = true ↔ (handleBasicNotify s b).1.level ≠ s.level) ∧
      ((c.id = 1101 ∨ c.id = 2) → handleItemChange s c = { s with exp := c.count }) ∧
      (¬(c.id = 1101 ∨ c.id = 2) → (c.id = 1 ∨ c.id = 1001) →
        handleItemChange s c = { s with gold := c.count }) ∧
      (¬(c.id = 1101 ∨ c.id = 2) → ¬(c.id = 1 ∨ c.id = 1001) →
        handleItemChange s c = s) := by
  refine ⟨?_, ?_, ?_, ?_, ?_, ?_, ?_, ?_, ?_⟩
  · by_cases h1 : b.level > 0 <;> by_cases h2 : b.gold > 0 <;> by_cases h3 : b.exp > 0 <;>
      simp [handleBasicNotify, h1, h2, h3]
  · by_cases h1 : b.level > 0 <;> by_cases h2 : b.gold > 0 <;> by_cases h3 : b.exp > 0 <;>
      simp [handleBasicNotify, h1, h2, h3]
  · by_cases h1 : b.level > 0 <;> by_cases h2 : b.gold > 0 <;> by_cases h3 : b.exp > 0 <;>
      simp [handleBasicNotify, h1, h2, h3]
  · by_cases h1 : b.level > 0 <;> by_cases h2 : b.gold > 0 <;> by_cases h3 : b.exp > 0 <;>
      simp [handleBasicNotify, h1, h2, h3]
  · by_cases h1 : b.level > 0 <;> by_cases h2 : b.gold > 0 <;> by_cases h3 : b.exp > 0 <;>
      simp [handleBasicNotify, h1, h2, h3]
  · by_cases h1 : b.level > 0 <;> by_cases h2 : b.gold > 0 <;> by_cases h3 : b.exp > 0 <;>
      simp [handleBasicNotify, h1, h2, h3]
  · intro h
    simp [handleItemChange, h]
  · intro h1 h2
    simp [handleItemChange, h1, h2]
  · intro h1 h2
    simp [handleItemChange, h1, h2]

theorem notify_update_characterization_witness :
    (((1101 : Int) = 1101 ∨ (1101 : Int) = 2) ∧
        handleItemChange ⟨1, "", 5, 7, 9⟩ ⟨1101, 42⟩ =
          { (⟨1, "", 5, 7, 9⟩ : UserState) with exp := 42 }) ∧
      (¬((7 : Int) = 1101 ∨ (7 : Int) = 2) ∧ ¬((7 : Int) = 1 ∨ (7 : Int) = 1001) ∧
        handleItemChange ⟨1, "", 5, 7, 9⟩ ⟨7, 42⟩ = (⟨1, "", 5, 7, 9⟩ : UserState)) :=
  ⟨⟨Or.inl rfl,
      (notify_update_characterization ⟨1, "", 5, 7, 9⟩ ⟨0, 0, 0⟩ ⟨1101, 42⟩).2.2.2.2.2.2.1
        (Or.inl rfl)⟩,
    ⟨by decide, by decide,
      (notify_update_characterization ⟨1, "", 5, 7, 9⟩ ⟨0, 0, 0⟩ ⟨7, 42⟩).2.2.2.2.2.2.2.2
        (by decide) (by decide)⟩⟩

end QQFarmBot
